import Mathlib

/-!
# Verification of the face-recognition debounce / audit-ledger core

Shallow embedding of the recognition core of the repository:

* `src/core/face_engine.py` — `FaceRecognitionEngine.recognize_faces`
* `src/gui/recognition_widget.py` — `FaceRecognitionWidget.process_video_frame`,
  `_is_known_user_cooldown_expired`, `_is_unknown_user_cooldown_expired`,
  `_analyze_detected_face`
* `src/audit/logger.py` — `SecurityAuditLogger._write_security_event`,
  `log_face_recognition_attempt`, `generate_security_statistics` (recent-events
  query), `export_security_report` (export query)

Python floats are modelled as `ℚ`, with NaN made explicit: a match score is
`Option ℚ`, where `none` models NaN (every IEEE comparison involving NaN is
false, which is exactly how the code's `<=` and `np.argmin` treat it).
Wall-clock readings (`datetime.datetime.now()`, `total_seconds()`) are `ℚ`
numbers of seconds.  Fallible storage (sqlite3 raising inside
`_write_security_event`) is modelled by an explicit `storageOk : Bool` input
selecting whether the guarded block raises.
-/

namespace FaceRecSys

/-- A floating-point similarity distance: `none` models IEEE NaN,
`some q` a finite value. -/
def Score : Type := Option ℚ

instance : DecidableEq Score := by unfold Score; infer_instance

/-- The Python comparison `best_distance <= FACE_DISTANCE_THRESHOLD`
(`face_engine.py` line 91).  A NaN distance compares false, as in IEEE
arithmetic, so a malformed score is never "known". -/
def scoreLeThr : Score → ℚ → Bool
  | some a, t => a ≤ t
  | none, _ => false

/-- Spec-level comparison of two (possibly NaN) scores; only finite values
are comparable. -/
def scoreLE : Score → Score → Prop
  | some a, some b => a ≤ b
  | _, _ => False

/-- Spec-level strict comparison of two (possibly NaN) scores. -/
def scoreLT : Score → Score → Prop
  | some a, some b => a < b
  | _, _ => False

/-- One comparison step of `np.argmin`: `x` is the head entry, `b` the best
entry of the tail, `j` the best index of the tail.  A NaN head wins (first
NaN), a NaN tail-best wins over a finite head (NaN propagates), and between
finite values the head keeps ties (first minimum). -/
def argminStep (x b : Score) (j : Nat) : Nat :=
  match x, b with
  | none, _ => 0
  | some _, none => j + 1
  | some a, some c => if c < a then j + 1 else 0

/-- `np.argmin` over a list of distances (`face_engine.py` line 72):
the index of the first NaN when one is present (NaN propagates through
numpy minimum reductions), otherwise the first index attaining the minimum
value.  On the empty list (never reached by the source: the gallery is
checked nonempty first) it returns `0`. -/
def npArgmin : List Score → Nat
  | [] => 0
  | [_] => 0
  | x :: y :: xs => argminStep x ((y :: xs).getD (npArgmin (y :: xs)) none) (npArgmin (y :: xs))

/-- One face's worth of recognition output, the dict built at
`face_engine.py` lines 83–94.  The `location` field (display geometry,
rescaled by `1/scale` purely for drawing the overlay rectangle) carries no
verified property and is not modelled. -/
structure FaceInfo where
  /-- `'distance'`: distance to the closest enrolled encoding. -/
  distance : Score
  /-- `'user_id'`: best-matching enrolled subject id, `none` when unknown. -/
  user_id : Option String
  /-- `'is_known'`: whether the distance cleared the threshold. -/
  is_known : Bool
deriving DecidableEq

/-- The engine state loaded by `load_encodings` (`face_engine.py`
lines 16–20): parallel lists of enrolled encodings and their subject ids. -/
structure FaceRecognitionEngine (Enc : Type) where
  known_encodings : List Enc
  known_user_ids : List String

/-- `FaceRecognitionEngine.recognize_faces` (`face_engine.py` lines 46–99).

Parameters model the external `face_recognition` library: `detect` is the
composition `face_locations` + `face_encodings` (returns the encodings of the
faces found on the frame), `dist` is `face_distance` against one enrolled
encoding, and `thr` is the configured `FACE_DISTANCE_THRESHOLD` (imported
from config; its value is not present under `src/`, so it stays a
parameter).  If the gallery is empty the function returns `[]` before any
detection; otherwise each detected face is classified by comparing its best
(argmin) distance with the threshold.  The source's locals are written
inline: `face_distances` is `eng.known_encodings.map fun ke => dist ke fe`,
`best_match_index` is its `npArgmin`, and `best_distance` is the entry at
that index. -/
def recognize_faces {Enc Frame : Type} (dist : Enc → Enc → Score)
    (detect : Frame → List Enc) (thr : ℚ)
    (eng : FaceRecognitionEngine Enc) (frame : Frame) : List FaceInfo :=
  if eng.known_encodings.isEmpty then []
  else
    (detect frame).map fun fe =>
      if scoreLeThr ((eng.known_encodings.map fun ke => dist ke fe).getD
          (npArgmin (eng.known_encodings.map fun ke => dist ke fe)) none) thr then
        { distance := (eng.known_encodings.map fun ke => dist ke fe).getD
            (npArgmin (eng.known_encodings.map fun ke => dist ke fe)) none
          user_id := some (eng.known_user_ids.getD
            (npArgmin (eng.known_encodings.map fun ke => dist ke fe)) "")
          is_known := true }
      else
        { distance := (eng.known_encodings.map fun ke => dist ke fe).getD
            (npArgmin (eng.known_encodings.map fun ke => dist ke fe)) none
          user_id := none
          is_known := false }

/-! ## Recognition widget (debouncer) embedding

`src/gui/recognition_widget.py`.  The GUI plumbing (tkinter widgets, photo
display, timers for clearing the info panel) is I/O with no claims; the
embedded core is the per-frame cooldown logic and its audit writes. -/

/-- Cooldown configuration (`config/settings.py` lines 5–6):
`RECOGNITION_DELAY = 3` and `UNKNOWN_FACE_DELAY = 5` seconds. -/
structure Config where
  recognitionDelay : ℚ
  unknownFaceDelay : ℚ
deriving DecidableEq

/-- The values shipped in `config/settings.py`. -/
def defaultConfig : Config := { recognitionDelay := 3, unknownFaceDelay := 5 }

/-- The widget's cooldown state (`recognition_widget.py` lines 71–72):
exactly two timestamps — one shared by *all* known subjects
(`last_successful_recognition_timestamp`) and one for unknown faces
(`last_unknown_face_detection_timestamp`).  `none` models Python `None`. -/
structure WidgetState where
  last_successful_recognition_timestamp : Option ℚ
  last_unknown_face_detection_timestamp : Option ℚ
deriving DecidableEq

/-- `_is_known_user_cooldown_expired` (`recognition_widget.py` lines
416–435): first recognition is always allowed; otherwise the elapsed
seconds since the last successful recognition must reach
`RECOGNITION_DELAY`. -/
def is_known_user_cooldown_expired (cfg : Config) (s : WidgetState) (t : ℚ) : Bool :=
  match s.last_successful_recognition_timestamp with
  | none => true
  | some last => cfg.recognitionDelay ≤ t - last

/-- `_is_unknown_user_cooldown_expired` (`recognition_widget.py` lines
437–454). -/
def is_unknown_user_cooldown_expired (cfg : Config) (s : WidgetState) (t : ℚ) : Bool :=
  match s.last_unknown_face_detection_timestamp with
  | none => true
  | some last => cfg.unknownFaceDelay ≤ t - last

/-- One call `audit.log_face_recognition_attempt(user_id, success,
confidence)` issued by the widget. -/
structure LogCall where
  user_id : Option String
  success : Bool
  confidence : Score
deriving DecidableEq

/-- The per-face outcome of `_analyze_detected_face`, abstracting its
`(name, color)` return value: green box plus audit success write = known
emit; red box plus audit failure write = unknown emit; yellow box showing
`time_left` = suppressed.  The float formatting `f"\x7btime_left:.1f\x7ds"`
of the label is not modelled; the constructor carries the unformatted
`time_left` value. -/
inductive Decision where
  | emitKnown (user_id : Option String) (distance : Score)
  | suppressedKnown (remaining : ℚ)
  | emitUnknown (distance : Score)
  | suppressedUnknown (remaining : ℚ)
deriving DecidableEq

/-- Result of one `_analyze_detected_face` call: the decision, the audit
log calls it issued, and the widget state after its side effects. -/
structure AnalyzeResult where
  decision : Decision
  logs : List LogCall
  state : WidgetState
deriving DecidableEq

/-- `_analyze_detected_face` (`recognition_widget.py` lines 456–513).

The known/emit branch writes a success audit entry carrying the raw
`face_info['distance']` and leaves the widget timestamps alone (the known
timestamp is updated later, by the caller's loop); the unknown/emit branch
writes a failure entry and sets the unknown timestamp to `current_time`.
In the suppressed branches the source reads the corresponding timestamp,
which is necessarily set there (the `can_*` flag is false); the `getD t`
default (elapsed 0) stands in for that unreachable `None` case. -/
def analyze_detected_face (cfg : Config) (s : WidgetState) (f : FaceInfo)
    (t : ℚ) (can_recognize_known can_recognize_unknown : Bool) : AnalyzeResult :=
  if f.is_known then
    if can_recognize_known then
      { decision := .emitKnown f.user_id f.distance
        logs := [{ user_id := f.user_id, success := true, confidence := f.distance }]
        state := s }
    else
      { decision := .suppressedKnown
          (cfg.recognitionDelay - (t - s.last_successful_recognition_timestamp.getD t))
        logs := []
        state := s }
  else
    if can_recognize_unknown then
      { decision := .emitUnknown f.distance
        logs := [{ user_id := none, success := false, confidence := f.distance }]
        state := { s with last_unknown_face_detection_timestamp := some t } }
    else
      { decision := .suppressedUnknown
          (cfg.unknownFaceDelay - (t - s.last_unknown_face_detection_timestamp.getD t))
        logs := []
        state := s }

/-- `db.get_user_by_id` applied to `face_info['user_id']`.  The user
directory is modelled as a partial map from subject id to the profile
record (only its presence matters to the core; the tuple fields are
display-only). -/
def db_lookup (db : String → Option String) : Option String → Option String
  | some u => db u
  | none => none

/-- The widget state after one iteration of the face loop of
`process_video_frame` (`recognition_widget.py` lines 387–401): the state
mutated by `_analyze_detected_face` itself, plus the loop's own update —
for a known face that was allowed to emit, a user-directory lookup is made
and, only when it returns a record, the shared
`last_successful_recognition_timestamp` is set to `current_time`
(line 400). -/
def face_step (cfg : Config) (db : String → Option String)
    (can_recognize_known can_recognize_unknown : Bool) (t : ℚ)
    (s : WidgetState) (f : FaceInfo) : WidgetState :=
  if f.is_known && can_recognize_known then
    match db_lookup db f.user_id with
    | some _ =>
      { (analyze_detected_face cfg s f t can_recognize_known can_recognize_unknown).state
          with last_successful_recognition_timestamp := some t }
    | none => (analyze_detected_face cfg s f t can_recognize_known can_recognize_unknown).state
  else (analyze_detected_face cfg s f t can_recognize_known can_recognize_unknown).state

/-- The face loop of `process_video_frame` (`recognition_widget.py` lines
387–401): each face is analyzed with the frame-level `can_recognize_*`
flags fixed at lines 383–384; the loop accumulates the per-face decisions
and audit log calls and threads the widget state through `face_step`. -/
def process_faces (cfg : Config) (db : String → Option String)
    (can_recognize_known can_recognize_unknown : Bool) (t : ℚ) :
    List FaceInfo → WidgetState → WidgetState × List Decision × List LogCall
  | [], s => (s, [], [])
  | f :: fs, s =>
    ((process_faces cfg db can_recognize_known can_recognize_unknown t fs
        (face_step cfg db can_recognize_known can_recognize_unknown t s f)).1,
     (analyze_detected_face cfg s f t can_recognize_known can_recognize_unknown).decision ::
       (process_faces cfg db can_recognize_known can_recognize_unknown t fs
         (face_step cfg db can_recognize_known can_recognize_unknown t s f)).2.1,
     (analyze_detected_face cfg s f t can_recognize_known can_recognize_unknown).logs ++
       (process_faces cfg db can_recognize_known can_recognize_unknown t fs
         (face_step cfg db can_recognize_known can_recognize_unknown t s f)).2.2)

/-- `process_video_frame` (`recognition_widget.py` lines 349–414),
restricted to its recognition core (frame capture, overlay drawing and
info-panel updates are I/O and carry no claims).  `t` is the
`datetime.datetime.now()` reading of line 379.  Both cooldown checks are
evaluated once, before the face loop (lines 383–384). -/
def process_video_frame (cfg : Config) (db : String → Option String)
    (s : WidgetState) (recognized_faces : List FaceInfo) (t : ℚ) :
    WidgetState × List Decision × List LogCall :=
  process_faces cfg db (is_known_user_cooldown_expired cfg s t)
    (is_unknown_user_cooldown_expired cfg s t) t recognized_faces s

/-- The decision taken for a single detected face on one frame. -/
def frameDecision (cfg : Config) (s : WidgetState) (f : FaceInfo) (t : ℚ) : Decision :=
  (analyze_detected_face cfg s f t (is_known_user_cooldown_expired cfg s t)
    (is_unknown_user_cooldown_expired cfg s t)).decision

/-- Iterated frame processing: the same single detected face is presented
on a sequence of frames at the given clock readings; returns the final
widget state and the decision taken on each frame. -/
def runFrames (cfg : Config) (db : String → Option String) (f : FaceInfo) :
    List ℚ → WidgetState → WidgetState × List Decision
  | [], s => (s, [])
  | t :: ts, s =>
    ((runFrames cfg db f ts (process_video_frame cfg db s [f] t).1).1,
     (process_video_frame cfg db s [f] t).2.1 ++
       (runFrames cfg db f ts (process_video_frame cfg db s [f] t).1).2)

/-! ## Audit ledger embedding (`src/audit/logger.py`) -/

/-- One row of the `security_events` table (`logger.py` lines 101–110).
`id` is the `AUTOINCREMENT` surrogate key; `timestamp` is the insert-time
clock reading (stored as ISO-8601 text, whose lexicographic `>=` and
`ORDER BY` agree with chronological order, hence modelled as `ℚ`
seconds). -/
structure AuditEvent where
  id : Nat
  timestamp : ℚ
  event_type : String
  user_id : Option String
  result : String
  confidence : Score
deriving DecidableEq

/-- The audit database: rows in insertion order plus the autoincrement
counter. -/
structure Ledger where
  events : List AuditEvent
  nextId : Nat
deriving DecidableEq

/-- The `PersistenceError` of the spec's error taxonomy: the error a
failing durable write would surface to the caller. -/
def PersistenceError : Type := String

/-- `SecurityAuditLogger._write_security_event` (`logger.py` lines
185–224).

The whole sqlite3 interaction sits in one `try` block; `storageOk` selects
whether that block raises.  `now` is the `datetime.datetime.now()` reading
of line 209 — the ledger, not the caller, assigns the timestamp.  The
second component is what the call surfaces to its caller: the source's
`except` clause prints two diagnostic lines and falls through, so the
function always returns normally (`none`) — also when the write failed and
the event was dropped. -/
def write_security_event (led : Ledger) (storageOk : Bool) (event_type : String)
    (user_id : Option String) (result : String) (confidence : Score) (now : ℚ) :
    Ledger × Option PersistenceError :=
  if storageOk then
    ({ events := led.events ++
        [{ id := led.nextId, timestamp := now, event_type := event_type,
           user_id := user_id, result := result, confidence := confidence }],
       nextId := led.nextId + 1 }, none)
  else
    (led, none)

/-- `log_face_recognition_attempt` (`logger.py` lines 126–144). -/
def log_face_recognition_attempt (led : Ledger) (storageOk : Bool)
    (user_id : Option String) (success : Bool) (confidence : Score) (now : ℚ) :
    Ledger × Option PersistenceError :=
  write_security_event led storageOk "recognition_attempt" user_id
    (if success then "success" else "failed") confidence now

/-- Timestamp-descending order between rows ("newest first"). -/
def tsGe (a b : AuditEvent) : Prop := b.timestamp ≤ a.timestamp

/-- Insert a row into a timestamp-descending list, after every entry with
an equal or larger timestamp. -/
def insertTsDesc (e : AuditEvent) : List AuditEvent → List AuditEvent
  | [] => [e]
  | x :: xs => if e.timestamp ≤ x.timestamp then x :: insertTsDesc e xs else e :: x :: xs

/-- `ORDER BY timestamp DESC` over the selected rows.  The SQL names no
tie-break key, so the relative order of equal timestamps is unspecified;
the embedding fixes it to insertion order, and no theorem below relies on
that choice. -/
def sortTsDesc (l : List AuditEvent) : List AuditEvent :=
  l.foldl (fun acc e => insertTsDesc e acc) []

/-- Rows selected by `WHERE timestamp >= ?` with the window start bound. -/
def eventsSince (led : Ledger) (start : ℚ) : List AuditEvent :=
  led.events.filter fun e => start ≤ e.timestamp

/-- The `recent_events` query of `generate_security_statistics`
(`logger.py` lines 269–277): window rows, `ORDER BY timestamp DESC`,
`LIMIT 50`. -/
def recent_events (led : Ledger) (start : ℚ) : List AuditEvent :=
  (sortTsDesc (eventsSince led start)).take 50

/-- The export query of `export_security_report` (`logger.py` lines
326–333): all window rows, `ORDER BY timestamp DESC`, no limit (the CSV
formatting applied afterwards is out of scope). -/
def export_events (led : Ledger) (start : ℚ) : List AuditEvent :=
  sortTsDesc (eventsSince led start)

/-! ## Sample concrete objects, used in concrete evaluations below -/

/-- A sample user directory: subject "u1" is enrolled with display name
"Alice"; every other id is absent. -/
def sampleDb : String → Option String := fun u => if u = "u1" then some "Alice" else none

/-- A fresh widget state: no prior emissions (camera just started). -/
def freshState : WidgetState :=
  { last_successful_recognition_timestamp := none
    last_unknown_face_detection_timestamp := none }

/-- A sample known-face match result: distance 2 against subject "u1"
(scores are in an arbitrary library scale; integer values keep concrete
evaluations kernel-reducible). -/
def sampleKnownFace : FaceInfo :=
  { distance := some 2, user_id := some "u1", is_known := true }

/-- A sample known-face match result for a second subject "u2". -/
def sampleFaceB : FaceInfo :=
  { distance := some 2, user_id := some "u2", is_known := true }

/-- A sample unknown-face match result: distance 9, no candidate. -/
def sampleUnknownFace : FaceInfo :=
  { distance := some 9, user_id := none, is_known := false }

/-- A sample known-face match result whose subject id "ghost" is absent
from `sampleDb` (the gallery and the user directory disagree). -/
def sampleGhostFace : FaceInfo :=
  { distance := some 2, user_id := some "ghost", is_known := true }

/-! ## Supporting lemmas -/

theorem npArgmin_cons_cons (x y : Score) (xs : List Score) :
    npArgmin (x :: y :: xs) =
      argminStep x ((y :: xs).getD (npArgmin (y :: xs)) none) (npArgmin (y :: xs)) := rfl

/-! ## Basic facts about `npArgmin` -/

theorem npArgmin_lt_length : ∀ (l : List Score), l ≠ [] → npArgmin l < l.length
  | [], h => absurd rfl h
  | [_], _ => by simp [npArgmin]
  | x :: y :: xs, _ => by
    have ih := npArgmin_lt_length (y :: xs) (by simp)
    rw [npArgmin_cons_cons]
    cases x with
    | none => simp [argminStep]
    | some a =>
      cases hbd : (y :: xs).getD (npArgmin (y :: xs)) none with
      | none => simpa [argminStep] using Nat.succ_lt_succ ih
      | some b =>
        by_cases hba : b < a
        · simpa [argminStep, hba] using Nat.succ_lt_succ ih
        · simp [argminStep, hba]

/-- On an all-finite list, the entry at a valid index is finite. -/
theorem getD_ne_none_of_finite {l : List Score} (hfin : ∀ x ∈ l, x ≠ none)
    {j : Nat} (hj : j < l.length) : l.getD j none ≠ none := by
  rw [List.getD_eq_getElem l none hj]
  exact hfin _ (l.getElem_mem hj)

/-- On an all-finite distance list, `npArgmin` returns the *first* index
attaining the minimum: its value is ≤ every entry, and strictly below every
entry at a smaller index. -/
theorem npArgmin_firstMin : ∀ (l : List Score), (∀ x ∈ l, x ≠ none) → l ≠ [] →
    (∀ j, j < l.length → scoreLE (l.getD (npArgmin l) none) (l.getD j none)) ∧
    (∀ j, j < npArgmin l → scoreLT (l.getD (npArgmin l) none) (l.getD j none))
  | [], _, h => absurd rfl h
  | [x], hfin, _ => by
    cases x with
    | none => exact absurd rfl (hfin none (by simp))
    | some a =>
      constructor
      · intro j hj
        have hj0 : j = 0 := by simpa using Nat.lt_one_iff.mp (by simpa using hj)
        subst hj0
        simp [npArgmin, scoreLE]
      · intro j hj
        simp [npArgmin] at hj
  | x :: y :: xs, hfin, _ => by
    have hfin' : ∀ z ∈ y :: xs, z ≠ none := fun z hz => hfin z (List.mem_cons_of_mem _ hz)
    have ih := npArgmin_firstMin (y :: xs) hfin' (by simp)
    have ihlt := npArgmin_lt_length (y :: xs) (by simp)
    cases x with
    | none => exact absurd rfl (hfin none (by simp))
    | some a =>
      cases hbd : (y :: xs).getD (npArgmin (y :: xs)) none with
      | none => exact absurd hbd (getD_ne_none_of_finite hfin' ihlt)
      | some b =>
        by_cases hba : b < a
        · have harg : npArgmin (some a :: y :: xs) = npArgmin (y :: xs) + 1 := by
            rw [npArgmin_cons_cons, hbd]; simp [argminStep, hba]
          constructor
          · intro j hj
            rw [harg]
            cases j with
            | zero =>
              simp only [List.getD_cons_succ, List.getD_cons_zero, hbd]
              exact le_of_lt hba
            | succ j' =>
              simp only [List.getD_cons_succ, hbd]
              have h1 := ih.1 j' (by simpa using Nat.lt_of_succ_lt_succ hj)
              rw [hbd] at h1
              exact h1
          · intro j hj
            rw [harg]
            rw [harg] at hj
            cases j with
            | zero =>
              simp only [List.getD_cons_succ, List.getD_cons_zero, hbd]
              exact hba
            | succ j' =>
              simp only [List.getD_cons_succ, hbd]
              have h1 := ih.2 j' (Nat.lt_of_succ_lt_succ hj)
              rw [hbd] at h1
              exact h1
        · have harg : npArgmin (some a :: y :: xs) = 0 := by
            rw [npArgmin_cons_cons, hbd]; simp [argminStep, hba]
          have hab : a ≤ b := le_of_not_lt hba
          constructor
          · intro j hj
            rw [harg]
            cases j with
            | zero => simp [scoreLE]
            | succ j' =>
              have hj' : j' < (y :: xs).length := by simpa using Nat.lt_of_succ_lt_succ hj
              simp only [List.getD_cons_succ, List.getD_cons_zero]
              have h1 := ih.1 j' hj'
              rw [hbd] at h1
              cases hz : (y :: xs).getD j' none with
              | none => exact absurd hz (getD_ne_none_of_finite hfin' hj')
              | some c =>
                rw [hz] at h1
                exact le_trans hab h1
          · intro j hj
            rw [harg] at hj
            exact absurd hj (Nat.not_lt_zero j)

/-! ### Facts about the descending sort -/

theorem mem_insertTsDesc (a e : AuditEvent) :
    ∀ l : List AuditEvent, (a ∈ insertTsDesc e l ↔ a = e ∨ a ∈ l)
  | [] => by simp [insertTsDesc]
  | x :: xs => by
    simp only [insertTsDesc]
    split
    · simp only [List.mem_cons, mem_insertTsDesc a e xs]
      tauto
    · simp only [List.mem_cons]

theorem sorted_insertTsDesc (e : AuditEvent) :
    ∀ l : List AuditEvent, List.Sorted tsGe l → List.Sorted tsGe (insertTsDesc e l)
  | [], _ => by simp [insertTsDesc, List.Sorted]
  | x :: xs, h => by
    rw [List.sorted_cons] at h
    simp only [insertTsDesc]
    split
    · rename_i hle
      rw [List.sorted_cons]
      refine ⟨fun b hb => ?_, sorted_insertTsDesc e xs h.2⟩
      rcases (mem_insertTsDesc b e xs).mp hb with hbe | hbx
      · subst hbe; exact hle
      · exact h.1 b hbx
    · rename_i hgt
      have hxe : x.timestamp ≤ e.timestamp := le_of_not_le hgt
      rw [List.sorted_cons]
      refine ⟨fun b hb => ?_, by rw [List.sorted_cons]; exact h⟩
      rcases List.mem_cons.mp hb with hbx | hbxs
      · subst hbx; exact hxe
      · exact le_trans (h.1 b hbxs) hxe

theorem sortTsDesc_sorted_aux :
    ∀ (l acc : List AuditEvent), List.Sorted tsGe acc →
      List.Sorted tsGe (l.foldl (fun acc e => insertTsDesc e acc) acc)
  | [], _, h => h
  | e :: l, acc, h =>
    sortTsDesc_sorted_aux l (insertTsDesc e acc) (sorted_insertTsDesc e acc h)

theorem sorted_sortTsDesc (l : List AuditEvent) : List.Sorted tsGe (sortTsDesc l) :=
  sortTsDesc_sorted_aux l [] (by simp)

theorem mem_sortTsDesc_aux (a : AuditEvent) :
    ∀ (l acc : List AuditEvent),
      (a ∈ l.foldl (fun acc e => insertTsDesc e acc) acc ↔ a ∈ acc ∨ a ∈ l)
  | [], acc => by simp
  | e :: l, acc => by
    simp only [List.foldl_cons]
    rw [mem_sortTsDesc_aux a l (insertTsDesc e acc), mem_insertTsDesc]
    simp
    tauto

theorem mem_sortTsDesc (a : AuditEvent) (l : List AuditEvent) :
    a ∈ sortTsDesc l ↔ a ∈ l := by
  rw [sortTsDesc, mem_sortTsDesc_aux]
  simp

theorem sortTsDesc_append_singleton (l : List AuditEvent) (e : AuditEvent) :
    sortTsDesc (l ++ [e]) = insertTsDesc e (sortTsDesc l) := by
  simp [sortTsDesc, List.foldl_append]

theorem insertTsDesc_of_newest {e : AuditEvent} :
    ∀ {l : List AuditEvent}, (∀ x ∈ l, x.timestamp < e.timestamp) →
      insertTsDesc e l = e :: l
  | [], _ => rfl
  | x :: xs, h => by
    have hx : x.timestamp < e.timestamp := h x (by simp)
    simp [insertTsDesc, not_le.mpr hx]


/-! ### Facts about the widget's cooldown state -/

theorem analyze_known_state (cfg : Config) (s : WidgetState) (f : FaceInfo) (t : ℚ)
    (cK cU : Bool) (hf : f.is_known = true) :
    (analyze_detected_face cfg s f t cK cU).state = s := by
  unfold analyze_detected_face
  simp only [hf, if_true]
  split <;> rfl

theorem analyze_preserves_known_slot (cfg : Config) (s : WidgetState) (f : FaceInfo)
    (t : ℚ) (cK cU : Bool) :
    (analyze_detected_face cfg s f t cK cU).state.last_successful_recognition_timestamp =
      s.last_successful_recognition_timestamp := by
  unfold analyze_detected_face
  split
  · split <;> rfl
  · split <;> rfl

theorem face_step_known_preserves_unknown_slot (cfg : Config) (db : String → Option String)
    (cK cU : Bool) (t : ℚ) (s : WidgetState) (f : FaceInfo) (hf : f.is_known = true) :
    (face_step cfg db cK cU t s f).last_unknown_face_detection_timestamp =
      s.last_unknown_face_detection_timestamp := by
  unfold face_step
  have hst := analyze_known_state cfg s f t cK cU hf
  split
  · split <;> rw [hst]
  · rw [hst]

theorem face_step_unknown_preserves_known_slot (cfg : Config) (db : String → Option String)
    (cK cU : Bool) (t : ℚ) (s : WidgetState) (f : FaceInfo) (hf : f.is_known = false) :
    (face_step cfg db cK cU t s f).last_successful_recognition_timestamp =
      s.last_successful_recognition_timestamp := by
  unfold face_step
  rw [hf]
  simp only [Bool.false_and, if_false]
  exact analyze_preserves_known_slot cfg s f t cK cU

theorem process_faces_all_known_unknown_slot (cfg : Config) (db : String → Option String)
    (cK cU : Bool) (t : ℚ) :
    ∀ (faces : List FaceInfo) (s : WidgetState), (∀ f ∈ faces, f.is_known = true) →
      (process_faces cfg db cK cU t faces s).1.last_unknown_face_detection_timestamp =
        s.last_unknown_face_detection_timestamp
  | [], _, _ => rfl
  | f :: fs, s, h => by
    have hf : f.is_known = true := h f (List.mem_cons_self f fs)
    have hrest := process_faces_all_known_unknown_slot cfg db cK cU t fs
      (face_step cfg db cK cU t s f) (fun g hg => h g (List.mem_cons_of_mem f hg))
    unfold process_faces
    rw [hrest, face_step_known_preserves_unknown_slot cfg db cK cU t s f hf]

theorem process_faces_all_unknown_known_slot (cfg : Config) (db : String → Option String)
    (cK cU : Bool) (t : ℚ) :
    ∀ (faces : List FaceInfo) (s : WidgetState), (∀ f ∈ faces, f.is_known = false) →
      (process_faces cfg db cK cU t faces s).1.last_successful_recognition_timestamp =
        s.last_successful_recognition_timestamp
  | [], _, _ => rfl
  | f :: fs, s, h => by
    have hf : f.is_known = false := h f (List.mem_cons_self f fs)
    have hrest := process_faces_all_unknown_known_slot cfg db cK cU t fs
      (face_step cfg db cK cU t s f) (fun g hg => h g (List.mem_cons_of_mem f hg))
    unfold process_faces
    rw [hrest, face_step_unknown_preserves_known_slot cfg db cK cU t s f hf]

theorem known_expired_mono (cfg : Config) (s : WidgetState) {t t' : ℚ} (h : t ≤ t') :
    is_known_user_cooldown_expired cfg s t = true →
    is_known_user_cooldown_expired cfg s t' = true := by
  unfold is_known_user_cooldown_expired
  cases s.last_successful_recognition_timestamp with
  | none => intro _; rfl
  | some last =>
    simp only [decide_eq_true_eq]
    intro hle
    linarith

theorem process_frame_fresh_emit (cfg : Config) (db : String → Option String)
    (s : WidgetState) (f : FaceInfo) (t : ℚ) (hf : f.is_known = true)
    (hexp : is_known_user_cooldown_expired cfg s t = true)
    (hdb : db_lookup db f.user_id ≠ none) :
    process_video_frame cfg db s [f] t =
      ({ s with last_successful_recognition_timestamp := some t },
       [Decision.emitKnown f.user_id f.distance],
       [{ user_id := f.user_id, success := true, confidence := f.distance }]) := by
  obtain ⟨r, hr⟩ := Option.ne_none_iff_exists'.mp hdb
  unfold process_video_frame process_faces face_step
  rw [hexp, hr]
  unfold analyze_detected_face
  simp only [hf, if_true, Bool.and_true, if_true]
  rfl

theorem process_frame_suppressed (cfg : Config) (db : String → Option String)
    (s : WidgetState) (f : FaceInfo) (t last : ℚ) (hf : f.is_known = true)
    (hs : s.last_successful_recognition_timestamp = some last)
    (hlt : t - last < cfg.recognitionDelay) :
    process_video_frame cfg db s [f] t =
      (s, [Decision.suppressedKnown (cfg.recognitionDelay - (t - last))], []) := by
  have hexp : is_known_user_cooldown_expired cfg s t = false := by
    unfold is_known_user_cooldown_expired
    rw [hs]
    simp only [decide_eq_false_iff_not, not_le]
    exact hlt
  unfold process_video_frame process_faces face_step
  rw [hexp]
  unfold analyze_detected_face
  simp only [hf, if_true, Bool.and_false, if_false, Bool.false_eq_true]
  rw [hs]
  rfl

theorem runFrames_suppressed (cfg : Config) (db : String → Option String)
    (f : FaceInfo) (last : ℚ) (hf : f.is_known = true) :
    ∀ (ts : List ℚ) (s : WidgetState),
      s.last_successful_recognition_timestamp = some last →
      (∀ t ∈ ts, t - last < cfg.recognitionDelay) →
      runFrames cfg db f ts s =
        (s, ts.map fun t => Decision.suppressedKnown (cfg.recognitionDelay - (t - last)))
  | [], _, _, _ => rfl
  | t :: ts, s, hs, hgap => by
    have hframe := process_frame_suppressed cfg db s f t last hf hs
      (hgap t (List.mem_cons_self t ts))
    have hrest := runFrames_suppressed cfg db f last hf ts s hs
      (fun u hu => hgap u (List.mem_cons_of_mem t hu))
    unfold runFrames
    rw [hframe]
    simp only [hrest]
    rfl

theorem frameDecision_known (cfg : Config) (s : WidgetState) (f : FaceInfo) (t : ℚ)
    (hk : f.is_known = true) :
    frameDecision cfg s f t =
      if is_known_user_cooldown_expired cfg s t then
        Decision.emitKnown f.user_id f.distance
      else
        Decision.suppressedKnown (cfg.recognitionDelay -
          (t - s.last_successful_recognition_timestamp.getD t)) := by
  unfold frameDecision analyze_detected_face
  simp only [hk, if_true]
  split <;> rfl

theorem frameDecision_unknown (cfg : Config) (s : WidgetState) (f : FaceInfo) (t : ℚ)
    (hk : f.is_known = false) :
    frameDecision cfg s f t =
      if is_unknown_user_cooldown_expired cfg s t then
        Decision.emitUnknown f.distance
      else
        Decision.suppressedUnknown (cfg.unknownFaceDelay -
          (t - s.last_unknown_face_detection_timestamp.getD t)) := by
  unfold frameDecision analyze_detected_face
  simp only [hk, Bool.false_eq_true, if_false]
  split <;> rfl

theorem process_frame_miss_emit (cfg : Config) (db : String → Option String)
    (s : WidgetState) (f : FaceInfo) (t : ℚ) (hf : f.is_known = true)
    (hexp : is_known_user_cooldown_expired cfg s t = true)
    (hmiss : db_lookup db f.user_id = none) :
    process_video_frame cfg db s [f] t =
      (s, [Decision.emitKnown f.user_id f.distance],
       [{ user_id := f.user_id, success := true, confidence := f.distance }]) := by
  unfold process_video_frame process_faces face_step
  rw [hexp, hmiss]
  unfold analyze_detected_face
  simp only [hf, if_true, Bool.and_true]
  rfl

/-! ## Claim theorems -/

/-- C1 (counterexample): a call to the internal security-event write whose
underlying storage write fails returns normally with no `PersistenceError`
surfaced, and the event is silently lost — refuting the claim that the
failure is surfaced to the caller. -/
theorem write_security_event_swallows_failure :
    write_security_event ⟨[], 0⟩ false "recognition_attempt" (some "u1")
      "success" (some (2/5)) 10 = (⟨[], 0⟩, none) := rfl

/-- C1 (amended): on storage failure `_write_security_event` catches the
exception, prints diagnostics, and returns normally — no error of any kind
is surfaced to the caller and the event is not persisted (it is silently
lost); the successful path surfaces no error either. -/
theorem write_security_event_never_surfaces_error (led : Ledger)
    (event_type : String) (user_id : Option String) (result : String)
    (confidence : Score) (now : ℚ) :
    write_security_event led false event_type user_id result confidence now = (led, none) ∧
    (write_security_event led true event_type user_id result confidence now).2 = none := by
  constructor
  · rfl
  · rfl

/-- C4 (counterexample): appending event E1 (timestamp 1) and then E2
(timestamp 2) makes the export query yield E2 before E1 — the export is
ordered by timestamp *descending*, refuting the claimed ascending order in
which E1 would come first. -/
theorem export_events_not_ascending :
    (export_events
      (write_security_event
        (write_security_event ⟨[], 0⟩ true "recognition_attempt" (some "u1")
          "success" (some (1/2)) 1).1
        true "recognition_attempt" (some "u2") "success" (some (1/2)) 2).1
      0).map AuditEvent.id = [1, 0] := by decide

/-- C4 (amended): both query results are deterministically ordered by
timestamp *descending* (newest first) — the recent list being exactly the
first page (50 rows) of the export sequence; the SQL specifies no id
tie-break, so the relative order of equal timestamps is not guaranteed. -/
theorem ledger_queries_timestamp_descending (led : Ledger) (start : ℚ) :
    List.Sorted tsGe (recent_events led start) ∧
    List.Sorted tsGe (export_events led start) ∧
    recent_events led start = (export_events led start).take 50 := by
  refine ⟨?_, sorted_sortTsDesc _, rfl⟩
  exact List.Pairwise.sublist (List.take_sublist _ _) (sorted_sortTsDesc _)

/-- C10: with an empty set of enrolled template encodings,
`recognize_faces` returns the empty list for every frame and every
detector — no face, known or unknown, is reported — and frame processing
of that result leaves the widget state unchanged and issues no
recognition-attempt audit write. -/
theorem empty_gallery_reports_nothing {Enc Frame : Type} (dist : Enc → Enc → Score)
    (detect : Frame → List Enc) (thr : ℚ) (ids : List String) (frame : Frame)
    (cfg : Config) (db : String → Option String) (s : WidgetState) (t : ℚ) :
    recognize_faces dist detect thr ⟨[], ids⟩ frame = [] ∧
    process_video_frame cfg db s (recognize_faces dist detect thr ⟨[], ids⟩ frame) t
      = (s, [], []) := by
  have h : recognize_faces dist detect thr ⟨[], ids⟩ frame = [] := by
    simp [recognize_faces]
  refine ⟨h, ?_⟩
  rw [h]
  rfl

/-- C5: every face reported by `recognize_faces` is marked known exactly
when its best distance clears the threshold and a candidate subject id is
present; a NaN distance is always classified unknown; and classification
is total — every detected face yields exactly one classified result, with
no error outcome. -/
theorem classification_iff_threshold {Enc Frame : Type} (dist : Enc → Enc → Score)
    (detect : Frame → List Enc) (thr : ℚ) (eng : FaceRecognitionEngine Enc)
    (frame : Frame) (f : FaceInfo)
    (hf : f ∈ recognize_faces dist detect thr eng frame) :
    (f.is_known = true ↔ (scoreLeThr f.distance thr = true ∧ f.user_id.isSome = true)) ∧
    (f.distance = none → f.is_known = false) ∧
    (recognize_faces dist detect thr eng frame).length =
      (if eng.known_encodings.isEmpty then 0 else (detect frame).length) := by
  have hlen : (recognize_faces dist detect thr eng frame).length =
      (if eng.known_encodings.isEmpty then 0 else (detect frame).length) := by
    unfold recognize_faces
    split
    · rfl
    · simp
  unfold recognize_faces at hf
  by_cases h : eng.known_encodings.isEmpty
  · rw [if_pos h] at hf
    exact absurd hf (List.not_mem_nil f)
  · rw [if_neg h, List.mem_map] at hf
    obtain ⟨fe, -, heq⟩ := hf
    subst heq
    refine ⟨?_, ?_, hlen⟩
    · split
      · rename_i hc
        simpa using hc
      · simp
    · split
      · rename_i hc
        intro hd
        dsimp only at hd
        rw [hd] at hc
        simp [scoreLeThr] at hc
      · intro _
        rfl

/-- C5 (witness): a concrete one-face frame against a one-subject gallery,
at distance 2 and threshold 3, is reported known with subject "u1". -/
theorem classification_iff_threshold_witness :
    sampleKnownFace ∈
      recognize_faces (fun _ _ => some 2) (fun _ => [0]) 3
        (⟨[0], ["u1"]⟩ : FaceRecognitionEngine Nat) 0 ∧
    ((sampleKnownFace.is_known = true ↔
      (scoreLeThr sampleKnownFace.distance 3 = true ∧
       sampleKnownFace.user_id.isSome = true)) ∧
     (sampleKnownFace.distance = none → sampleKnownFace.is_known = false) ∧
     (recognize_faces (fun _ _ => some 2) (fun _ => [0]) 3
        (⟨[0], ["u1"]⟩ : FaceRecognitionEngine Nat) 0).length =
       (if (FaceRecognitionEngine.known_encodings
            (⟨[0], ["u1"]⟩ : FaceRecognitionEngine Nat)).isEmpty then 0
        else ((fun _ => [0]) 0).length)) :=
  ⟨by decide,
   classification_iff_threshold (fun _ _ => some 2) (fun _ => [0]) 3
     ⟨[0], ["u1"]⟩ 0 sampleKnownFace (by decide)⟩

/-- C8 (counterexample): subjects "u9" and "u1" are enrolled, in that
order, and both tie at distance 3 for the detected face (threshold 5); the
chosen candidate is "u9" — the first gallery entry — although "u1"
precedes it in subjectId order, refuting the claimed tie-break on
subjectId ordering. -/
theorem tie_break_not_by_subject_id :
    (recognize_faces (fun _ _ => some 3) (fun _ => [7]) 5
        (⟨[0, 1], ["u9", "u1"]⟩ : FaceRecognitionEngine Nat) 0).map FaceInfo.user_id
      = [some "u9"] ∧
    "u1" < "u9" := by
  constructor
  · decide
  · rw [String.lt_iff_toList_lt]
    decide

/-- C8 (amended): when several enrolled subjects tie for the best (lowest)
distance, the chosen candidate is the one at the *first gallery position*
attaining the minimum — a stable deterministic tie-break on enrollment
order, not on subjectId ordering: the argmin index is minimal among
indices attaining the minimal distance, and the reported face carries the
subject id stored at that index. -/
theorem tie_break_first_gallery_position {Enc Frame : Type}
    (dist : Enc → Enc → Score) (detect : Frame → List Enc) (thr : ℚ)
    (eng : FaceRecognitionEngine Enc) (frame : Frame) (fe : Enc)
    (ds : List Score) (hds : ds = eng.known_encodings.map fun ke => dist ke fe)
    (hfe : fe ∈ detect frame) (hne : eng.known_encodings ≠ [])
    (hfin : ∀ x ∈ ds, x ≠ none)
    (hthr : scoreLeThr (ds.getD (npArgmin ds) none) thr = true) :
    (∀ j, j < ds.length → scoreLE (ds.getD (npArgmin ds) none) (ds.getD j none)) ∧
    (∀ j, j < npArgmin ds → scoreLT (ds.getD (npArgmin ds) none) (ds.getD j none)) ∧
    ({ distance := ds.getD (npArgmin ds) none
       user_id := some (eng.known_user_ids.getD (npArgmin ds) "")
       is_known := true } : FaceInfo) ∈ recognize_faces dist detect thr eng frame := by
  have hdsne : ds ≠ [] := by
    rw [hds]
    simpa using hne
  refine ⟨(npArgmin_firstMin ds hfin hdsne).1, (npArgmin_firstMin ds hfin hdsne).2, ?_⟩
  unfold recognize_faces
  rw [if_neg (by simpa using hne), List.mem_map]
  refine ⟨fe, hfe, ?_⟩
  rw [← hds, if_pos hthr]

/-- C8 (amended, witness): on the tied gallery of the counterexample the
argmin index 0 attains the minimum, no smaller index beats it, and the
reported face carries the subject at gallery position 0. -/
theorem tie_break_first_gallery_position_witness :
    (∀ j, j < ([some 3, some 3] : List Score).length →
      scoreLE (([some 3, some 3] : List Score).getD
          (npArgmin [some 3, some 3]) none)
        (([some 3, some 3] : List Score).getD j none)) ∧
    (∀ j, j < npArgmin [some 3, some 3] →
      scoreLT (([some 3, some 3] : List Score).getD
          (npArgmin [some 3, some 3]) none)
        (([some 3, some 3] : List Score).getD j none)) ∧
    ({ distance := ([some 3, some 3] : List Score).getD
         (npArgmin [some 3, some 3]) none
       user_id := some ((["u9", "u1"] : List String).getD
         (npArgmin [some 3, some 3]) "")
       is_known := true } : FaceInfo) ∈
      recognize_faces (fun _ _ => some 3) (fun _ => [7]) 5
        (⟨[0, 1], ["u9", "u1"]⟩ : FaceRecognitionEngine Nat) 0 :=
  tie_break_first_gallery_position (fun _ _ => some 3) (fun _ => [7]) 5
    ⟨[0, 1], ["u9", "u1"]⟩ 0 7 [some 3, some 3] (by decide) (by decide)
    (by decide) (by decide) (by decide)

/-- C2 (counterexample): with a fresh session, an Emit for known subject
"u1" at time 0 makes the detection of the *different* known subject "u2"
at time 1 come out Suppressed (2 seconds remaining) — the known cooldown
is one timestamp shared by all subjects, so subject A's emission does
suppress subject B, refuting per-subject cooldown state. -/
theorem known_subjects_share_one_cooldown :
    frameDecision defaultConfig
      (process_video_frame defaultConfig sampleDb freshState [sampleKnownFace] 0).1
      sampleFaceB 1 = Decision.suppressedKnown 2 := by
  rw [process_frame_fresh_emit defaultConfig sampleDb freshState sampleKnownFace 0 rfl rfl
    (by simp [db_lookup, sampleDb, sampleKnownFace])]
  unfold frameDecision
  have hexp : is_known_user_cooldown_expired defaultConfig
      { freshState with last_successful_recognition_timestamp := some 0 } 1 = false := by
    unfold is_known_user_cooldown_expired
    norm_num [defaultConfig, freshState]
  rw [hexp]
  unfold analyze_detected_face
  norm_num [sampleFaceB, defaultConfig, freshState]

/-- C2 (amended): the cooldown state is exactly two shared slots — one for
*all* known subjects together and one for unknown faces — and only the
classes are independent: a frame of known-face detections never changes
the unknown slot, and a frame of unknown-face detections never changes the
known slot (but an Emit for known subject A does suppress another known
subject B inside the cooldown window, since the known slot is shared). -/
theorem known_unknown_cooldown_classes_independent (cfg : Config)
    (db : String → Option String) (s : WidgetState) (faces : List FaceInfo) (t : ℚ) :
    ((∀ f ∈ faces, f.is_known = true) →
      (process_video_frame cfg db s faces t).1.last_unknown_face_detection_timestamp =
        s.last_unknown_face_detection_timestamp) ∧
    ((∀ f ∈ faces, f.is_known = false) →
      (process_video_frame cfg db s faces t).1.last_successful_recognition_timestamp =
        s.last_successful_recognition_timestamp) :=
  ⟨fun h => process_faces_all_known_unknown_slot cfg db _ _ t faces s h,
   fun h => process_faces_all_unknown_known_slot cfg db _ _ t faces s h⟩

/-- C2 (amended, witness): a frame with one known face leaves the unknown
slot untouched, and a frame with one unknown face leaves the known slot
untouched, from the fresh state at time 0. -/
theorem known_unknown_cooldown_classes_independent_witness :
    ((∀ f ∈ [sampleKnownFace], f.is_known = true) →
      (process_video_frame defaultConfig sampleDb freshState [sampleKnownFace]
          0).1.last_unknown_face_detection_timestamp =
        freshState.last_unknown_face_detection_timestamp) ∧
    ((∀ f ∈ [sampleKnownFace], f.is_known = false) →
      (process_video_frame defaultConfig sampleDb freshState [sampleKnownFace]
          0).1.last_successful_recognition_timestamp =
        freshState.last_successful_recognition_timestamp) :=
  known_unknown_cooldown_classes_independent defaultConfig sampleDb freshState
    [sampleKnownFace] 0

/-- C3 (counterexample): with the default 3-second known cooldown and a
registered subject, identical detections at times 0, 2 and 4 — whose
consecutive gaps 2 and 2 are both below the cooldown — produce *two* Emit
decisions (at 0 and at 4), because a Suppressed detection does not restart
the cooldown window; this refutes "exactly one Emit" for gap-bounded
sequences. -/
theorem gap_bounded_sequence_two_emissions :
    ((2 : ℚ) - 0 < 3 ∧ (4 : ℚ) - 2 < 3) ∧
    (runFrames defaultConfig sampleDb sampleKnownFace [0, 2, 4] freshState).2 =
      [Decision.emitKnown (some "u1") (some 2),
       Decision.suppressedKnown 1,
       Decision.emitKnown (some "u1") (some 2)] := by
  constructor
  · norm_num
  · norm_num [runFrames, process_video_frame, process_faces, face_step,
      analyze_detected_face, is_known_user_cooldown_expired,
      is_unknown_user_cooldown_expired, db_lookup, sampleDb, sampleKnownFace,
      freshState, defaultConfig]

/-- C3 (amended): for every sequence of identical known-face detections of
a registered subject that all fall *within `knownCooldownSeconds` of the
first detection*, exactly the first detection yields Emit and every later
one yields Suppressed, with strictly decreasing remaining times for
strictly increasing detection times; and once `knownCooldownSeconds` have
elapsed since the Emit, the next detection yields Emit again. -/
theorem known_cooldown_single_emission (cfg : Config) (db : String → Option String)
    (f : FaceInfo) (s0 : WidgetState) (t0 : ℚ) (ts : List ℚ) (t' : ℚ)
    (hf : f.is_known = true)
    (hdb : db_lookup db f.user_id ≠ none)
    (hs0 : s0.last_successful_recognition_timestamp = none)
    (hchain : List.Chain' (· < ·) (t0 :: ts))
    (hgap : ∀ t ∈ ts, t - t0 < cfg.recognitionDelay)
    (ht' : cfg.recognitionDelay ≤ t' - t0) :
    (runFrames cfg db f (t0 :: ts) s0).2 =
      Decision.emitKnown f.user_id f.distance ::
        (ts.map fun t => Decision.suppressedKnown (cfg.recognitionDelay - (t - t0))) ∧
    (runFrames cfg db f (t0 :: ts) s0).2.countP
      (fun d => match d with | Decision.emitKnown _ _ => true | _ => false) = 1 ∧
    List.Chain' (· > ·) (ts.map fun t => cfg.recognitionDelay - (t - t0)) ∧
    (runFrames cfg db f (t0 :: ts) s0).1.last_successful_recognition_timestamp = some t0 ∧
    frameDecision cfg (runFrames cfg db f (t0 :: ts) s0).1 f t' =
      Decision.emitKnown f.user_id f.distance := by
  have hexp0 : is_known_user_cooldown_expired cfg s0 t0 = true := by
    unfold is_known_user_cooldown_expired
    rw [hs0]
  have hframe0 := process_frame_fresh_emit cfg db s0 f t0 hf hexp0 hdb
  have hrun : runFrames cfg db f (t0 :: ts) s0 =
      ({ s0 with last_successful_recognition_timestamp := some t0 },
       Decision.emitKnown f.user_id f.distance ::
         (ts.map fun t => Decision.suppressedKnown (cfg.recognitionDelay - (t - t0)))) := by
    unfold runFrames
    rw [hframe0]
    rw [runFrames_suppressed cfg db f t0 hf ts
      { s0 with last_successful_recognition_timestamp := some t0 } rfl hgap]
    rfl
  rw [hrun]
  refine ⟨rfl, ?_, ?_, rfl, ?_⟩
  · simp [List.countP_cons, List.countP_map, Function.comp_def]
  · rw [List.chain'_map]
    have hts : List.Chain' (· < ·) ts := hchain.tail
    exact List.Chain'.imp (fun a b hab => by simp only [gt_iff_lt]; linarith) hts
  · unfold frameDecision
    have hexp' : is_known_user_cooldown_expired cfg
        { s0 with last_successful_recognition_timestamp := some t0 } t' = true := by
      unfold is_known_user_cooldown_expired
      simpa using ht'
    rw [hexp']
    unfold analyze_detected_face
    rw [hf]
    rfl

/-- C3 (amended, witness): default 3-second cooldown, detections at times
0, 1 and 2 (all within 3 of the first), re-detection at time 5: the run
yields Emit, Suppressed 2, Suppressed 1; one Emit in total; decreasing
remainders; and the detection at 5 emits again. -/
theorem known_cooldown_single_emission_witness :
    (runFrames defaultConfig sampleDb sampleKnownFace [0, 1, 2] freshState).2 =
      Decision.emitKnown sampleKnownFace.user_id sampleKnownFace.distance ::
        ([1, 2].map fun t =>
          Decision.suppressedKnown (defaultConfig.recognitionDelay - (t - 0))) ∧
    (runFrames defaultConfig sampleDb sampleKnownFace [0, 1, 2] freshState).2.countP
      (fun d => match d with | Decision.emitKnown _ _ => true | _ => false) = 1 ∧
    List.Chain' (· > ·) ([1, 2].map fun t => defaultConfig.recognitionDelay - (t - 0)) ∧
    (runFrames defaultConfig sampleDb sampleKnownFace [0, 1, 2]
      freshState).1.last_successful_recognition_timestamp = some 0 ∧
    frameDecision defaultConfig
      (runFrames defaultConfig sampleDb sampleKnownFace [0, 1, 2] freshState).1
      sampleKnownFace 5 =
      Decision.emitKnown sampleKnownFace.user_id sampleKnownFace.distance :=
  known_cooldown_single_emission defaultConfig sampleDb sampleKnownFace freshState
    0 [1, 2] 5 rfl (by simp [db_lookup, sampleDb, sampleKnownFace]) rfl
    (by norm_num [List.chain'_cons]) (by norm_num [defaultConfig])
    (by norm_num [defaultConfig])

/-- C7: when the supplied clock regresses (the later reading `t2` is ≤ the
earlier reading `t1`), the debouncer stays safe: a Suppressed decision
always carries a strictly positive remaining time (never negative), and at
the regressed reading the face is still Suppressed with a remaining time
at least as large — the cooldown is never treated as further along than
before the regression.  Both the known and the unknown class satisfy
this. -/
theorem clock_regression_never_negative_remaining (cfg : Config) (s : WidgetState)
    (f : FaceInfo) (t1 t2 r1 : ℚ) (hreg : t2 ≤ t1) :
    (frameDecision cfg s f t1 = Decision.suppressedKnown r1 →
      0 < r1 ∧ ∃ r2, r1 ≤ r2 ∧ frameDecision cfg s f t2 = Decision.suppressedKnown r2) ∧
    (frameDecision cfg s f t1 = Decision.suppressedUnknown r1 →
      0 < r1 ∧ ∃ r2, r1 ≤ r2 ∧ frameDecision cfg s f t2 = Decision.suppressedUnknown r2) := by
  constructor
  · intro h
    cases hk : f.is_known with
    | false =>
      rw [frameDecision_unknown cfg s f t1 hk] at h
      split at h <;> simp at h
    | true =>
      rw [frameDecision_known cfg s f t1 hk] at h
      cases hcK : is_known_user_cooldown_expired cfg s t1 with
      | true =>
        rw [hcK] at h
        simp at h
      | false =>
        rw [hcK] at h
        simp only [Bool.false_eq_true, if_false, Decision.suppressedKnown.injEq] at h
        cases hsl : s.last_successful_recognition_timestamp with
        | none =>
          unfold is_known_user_cooldown_expired at hcK
          rw [hsl] at hcK
          exact absurd hcK (by simp)
        | some last =>
          have hlt : t1 - last < cfg.recognitionDelay := by
            unfold is_known_user_cooldown_expired at hcK
            rw [hsl] at hcK
            simpa using hcK
          rw [hsl] at h
          simp only [Option.getD_some] at h
          have hcK2 : is_known_user_cooldown_expired cfg s t2 = false := by
            unfold is_known_user_cooldown_expired
            rw [hsl]
            simp only [decide_eq_false_iff_not, not_le]
            linarith
          refine ⟨by linarith, cfg.recognitionDelay - (t2 - last), by linarith, ?_⟩
          rw [frameDecision_known cfg s f t2 hk, hcK2, hsl]
          simp
  · intro h
    cases hk : f.is_known with
    | true =>
      rw [frameDecision_known cfg s f t1 hk] at h
      split at h <;> simp at h
    | false =>
      rw [frameDecision_unknown cfg s f t1 hk] at h
      cases hcU : is_unknown_user_cooldown_expired cfg s t1 with
      | true =>
        rw [hcU] at h
        simp at h
      | false =>
        rw [hcU] at h
        simp only [Bool.false_eq_true, if_false, Decision.suppressedUnknown.injEq] at h
        cases hsl : s.last_unknown_face_detection_timestamp with
        | none =>
          unfold is_unknown_user_cooldown_expired at hcU
          rw [hsl] at hcU
          exact absurd hcU (by simp)
        | some last =>
          have hlt : t1 - last < cfg.unknownFaceDelay := by
            unfold is_unknown_user_cooldown_expired at hcU
            rw [hsl] at hcU
            simpa using hcU
          rw [hsl] at h
          simp only [Option.getD_some] at h
          have hcU2 : is_unknown_user_cooldown_expired cfg s t2 = false := by
            unfold is_unknown_user_cooldown_expired
            rw [hsl]
            simp only [decide_eq_false_iff_not, not_le]
            linarith
          refine ⟨by linarith, cfg.unknownFaceDelay - (t2 - last), by linarith, ?_⟩
          rw [frameDecision_unknown cfg s f t2 hk, hcU2, hsl]
          simp

/-- C7 (witness): last emission at time 0, reading at time 1 (suppressed,
2 seconds remaining), regressed reading at time 0: the remaining time is
positive and does not shrink. -/
theorem clock_regression_never_negative_remaining_witness :
    (0 : ℚ) ≤ 1 ∧
    ((frameDecision defaultConfig ⟨some 0, some 0⟩ sampleKnownFace 1 =
        Decision.suppressedKnown 2 →
      (0 : ℚ) < 2 ∧ ∃ r2, (2 : ℚ) ≤ r2 ∧
        frameDecision defaultConfig ⟨some 0, some 0⟩ sampleKnownFace 0 =
          Decision.suppressedKnown r2) ∧
     (frameDecision defaultConfig ⟨some 0, some 0⟩ sampleKnownFace 1 =
        Decision.suppressedUnknown 2 →
      (0 : ℚ) < 2 ∧ ∃ r2, (2 : ℚ) ≤ r2 ∧
        frameDecision defaultConfig ⟨some 0, some 0⟩ sampleKnownFace 0 =
          Decision.suppressedUnknown r2)) :=
  ⟨by norm_num,
   clock_regression_never_negative_remaining defaultConfig ⟨some 0, some 0⟩
     sampleKnownFace 1 0 2 (by norm_num)⟩

/-- C9: on a known-face frame that is allowed to emit, the Success audit
write happens unconditionally, but the shared known-cooldown timestamp is
advanced only when the user-directory lookup afterwards returns a record;
on a lookup miss the widget state is completely unchanged, so a later
frame (any `t' ≥ t`) containing the same face emits and logs again with no
suppression. -/
theorem cooldown_advances_only_on_directory_hit (cfg : Config)
    (db : String → Option String) (s : WidgetState) (f : FaceInfo) (t t' : ℚ)
    (hf : f.is_known = true)
    (hexp : is_known_user_cooldown_expired cfg s t = true)
    (hlater : t ≤ t') :
    (db_lookup db f.user_id ≠ none →
      (process_video_frame cfg db s [f] t).1.last_successful_recognition_timestamp
        = some t) ∧
    (db_lookup db f.user_id = none →
      process_video_frame cfg db s [f] t =
        (s, [Decision.emitKnown f.user_id f.distance],
         [{ user_id := f.user_id, success := true, confidence := f.distance }]) ∧
      process_video_frame cfg db s [f] t' =
        (s, [Decision.emitKnown f.user_id f.distance],
         [{ user_id := f.user_id, success := true, confidence := f.distance }])) := by
  constructor
  · intro hdb
    rw [process_frame_fresh_emit cfg db s f t hf hexp hdb]
  · intro hmiss
    refine ⟨process_frame_miss_emit cfg db s f t hf hexp hmiss, ?_⟩
    exact process_frame_miss_emit cfg db s f t' hf
      (known_expired_mono cfg s hlater hexp) hmiss

/-- C9 (witness): the face of subject "ghost" (absent from the user
directory) at time 0 from the fresh state: the frame emits and logs a
Success entry, the state stays fresh, and the frame at time 1 emits and
logs again. -/
theorem cooldown_advances_only_on_directory_hit_witness :
    sampleGhostFace.is_known = true ∧
    is_known_user_cooldown_expired defaultConfig freshState 0 = true ∧
    (0 : ℚ) ≤ 1 ∧
    ((db_lookup sampleDb sampleGhostFace.user_id ≠ none →
      (process_video_frame defaultConfig sampleDb freshState [sampleGhostFace]
          0).1.last_successful_recognition_timestamp = some 0) ∧
     (db_lookup sampleDb sampleGhostFace.user_id = none →
      process_video_frame defaultConfig sampleDb freshState [sampleGhostFace] 0 =
        (freshState, [Decision.emitKnown sampleGhostFace.user_id sampleGhostFace.distance],
         [{ user_id := sampleGhostFace.user_id, success := true,
            confidence := sampleGhostFace.distance }]) ∧
      process_video_frame defaultConfig sampleDb freshState [sampleGhostFace] 1 =
        (freshState, [Decision.emitKnown sampleGhostFace.user_id sampleGhostFace.distance],
         [{ user_id := sampleGhostFace.user_id, success := true,
            confidence := sampleGhostFace.distance }]))) :=
  ⟨rfl, rfl, by norm_num,
   cooldown_advances_only_on_directory_hit defaultConfig sampleDb freshState
     sampleGhostFace 0 1 rfl rfl (by norm_num)⟩

/-- C6: an Emit decision writes exactly one recognition-attempt log call —
a known Emit carrying the subject id, success and the raw distance, an
unknown Emit carrying no subject, failure and the raw distance — and a
recognition log call appended to the ledger (timestamped after every
existing event, inside the query window) is the first row returned by the
recent-events query, with kind `recognition_attempt` and matching subject,
outcome and raw match score. -/
theorem emit_roundtrip (cfg : Config) (s : WidgetState) (f : FaceInfo) (t : ℚ)
    (canK canU : Bool) (led : Ledger) (start now : ℚ) (u : Option String)
    (b : Bool) (d : Score)
    (hwin : start ≤ now) (hfresh : ∀ e ∈ led.events, e.timestamp < now) :
    ((analyze_detected_face cfg s f t canK canU).decision = Decision.emitKnown u d →
      (analyze_detected_face cfg s f t canK canU).logs =
        [{ user_id := u, success := true, confidence := d }]) ∧
    ((analyze_detected_face cfg s f t canK canU).decision = Decision.emitUnknown d →
      (analyze_detected_face cfg s f t canK canU).logs =
        [{ user_id := none, success := false, confidence := d }]) ∧
    (recent_events (log_face_recognition_attempt led true u b d now).1 start).head? =
      some { id := led.nextId, timestamp := now, event_type := "recognition_attempt",
             user_id := u, result := if b then "success" else "failed",
             confidence := d } := by
  refine ⟨?_, ?_, ?_⟩
  · intro h
    unfold analyze_detected_face at h ⊢
    split at h
    case isTrue hk =>
      split at h
      case isTrue hcK =>
        dsimp only at h
        injection h with h1 h2
        subst h1
        subst h2
        rw [if_pos hk, if_pos hcK]
      case isFalse hcK =>
        dsimp only at h
        simp at h
    case isFalse hk =>
      split at h <;> (dsimp only at h; simp at h)
  · intro h
    unfold analyze_detected_face at h ⊢
    split at h
    case isTrue hk =>
      split at h <;> (dsimp only at h; simp at h)
    case isFalse hk =>
      split at h
      case isTrue hcU =>
        dsimp only at h
        injection h with h1
        subst h1
        rw [if_neg hk, if_pos hcU]
      case isFalse hcU =>
        dsimp only at h
        simp at h
  · unfold log_face_recognition_attempt write_security_event
    rw [if_pos rfl]
    unfold recent_events eventsSince
    simp only
    rw [List.filter_append]
    have hone : List.filter (fun (e : AuditEvent) => decide (start ≤ e.timestamp))
        ([{ id := led.nextId, timestamp := now, event_type := "recognition_attempt",
            user_id := u, result := if b then "success" else "failed",
            confidence := d }] : List AuditEvent) =
        [{ id := led.nextId, timestamp := now, event_type := "recognition_attempt",
           user_id := u, result := if b then "success" else "failed",
           confidence := d }] := by
      simp [hwin]
    rw [hone, sortTsDesc_append_singleton, insertTsDesc_of_newest]
    · rw [show (50 : Nat) = 49 + 1 from rfl, List.take_succ_cons]
      rfl
    · intro x hx
      have hx1 : x ∈ List.filter (fun e => decide (start ≤ e.timestamp)) led.events :=
        (mem_sortTsDesc x _).mp hx
      exact hfresh x (List.mem_filter.mp hx1).1

/-- C6 (witness): the known-emit decision for subject "u1" at distance 2,
appended to the empty ledger at time 1 with window start 0, is the first
recent-events row with kind `recognition_attempt`, subject "u1", outcome
success and match score 2. -/
theorem emit_roundtrip_witness :
    (0 : ℚ) ≤ 1 ∧
    (((analyze_detected_face defaultConfig freshState sampleKnownFace 0 true
        true).decision = Decision.emitKnown (some "u1") (some 2) →
      (analyze_detected_face defaultConfig freshState sampleKnownFace 0 true
        true).logs = [{ user_id := some "u1", success := true, confidence := some 2 }]) ∧
     ((analyze_detected_face defaultConfig freshState sampleKnownFace 0 true
        true).decision = Decision.emitUnknown (some 2) →
      (analyze_detected_face defaultConfig freshState sampleKnownFace 0 true
        true).logs = [{ user_id := none, success := false, confidence := some 2 }]) ∧
     (recent_events (log_face_recognition_attempt ⟨[], 0⟩ true (some "u1") true
        (some 2) 1).1 0).head? =
      some { id := 0, timestamp := 1, event_type := "recognition_attempt",
             user_id := some "u1", result := if true then "success" else "failed",
             confidence := some 2 }) :=
  ⟨by norm_num,
   emit_roundtrip defaultConfig freshState sampleKnownFace 0 true true ⟨[], 0⟩ 0 1
     (some "u1") true (some 2) (by norm_num) (by simp)⟩

end FaceRecSys
